import Mathlib

/-!
Verification of the SPA multi-agent RFQ repository
(`spa_multi_agent_system_v8.py`, `run_crawlers.py`, `create_gateway.py`,
`deploy_spa_multi_agent_system_v8.py`).

The development shallowly embeds the repository's own logic:

* a small backtracking regular-expression engine covering exactly the
  constructs used by the repository's patterns (character classes, literal
  characters under `re.IGNORECASE`, `?`, `*`, `+`, bounded repetition,
  non-capturing alternation, word boundaries `\b`, and a single capturing
  group), with Python's leftmost, priority-ordered backtracking semantics,
  `re.search` and `re.findall`;
* the field extractors `_extract_rfq_data_from_context` and
  `validate_rfq_data`;
* the Athena polling helpers `check_query_status` / `get_query_results`
  and the tools `query_athena`, `check_vendor_compliance`, `lookup_schema`
  with an explicit exception (`Except`) semantics for the AWS calls;
* the Glue crawler wait loop, the gateway creation wait loop, and the
  deployment status monitor;
* the JWT authorizer configuration built by the deployment script and the
  gateway creation script;
* the streaming entrypoints' payload validation over a model of Python
  values, and the OAuth2 token cache `get_gateway_access_token`.

External effects (AWS responses, HTTP responses, clock readings) are
supplied as explicit environment parameters; `time.sleep` calls are counted
rather than performed.
-/

namespace SpaRfq

/-! ## Regular-expression engine

Python `re` on ASCII text, restricted to the constructs appearing in the
repository's patterns.  Quantified subexpressions in those patterns are
always single character classes, which the syntax tree enforces; this makes
every quantifier iteration consume exactly one character and keeps the
matcher total without fuel inside a single anchored match. -/

/-- Regular expressions as used by the repository's patterns.  `cls` is a
character class given by a Boolean predicate; `starCls`/`repCls` quantify
over a character class only.  `grp` is the (single) capturing group. -/
inductive RE where
  | eps : RE
  | cls (p : Char → Bool) : RE
  | cat (a b : RE) : RE
  | alt (a b : RE) : RE
  | opt (a : RE) : RE
  | starCls (p : Char → Bool) : RE
  | repCls (p : Char → Bool) (lo hi : Nat) : RE
  | wb : RE
  | grp (a : RE) : RE

/-- Python `\w` over ASCII: letters, digits, underscore. -/
def isWordChar (c : Char) : Bool := c.isAlphanum || c = '_'

/-- Length of the maximal run of characters satisfying `p` at the front. -/
def runLen (p : Char → Bool) : List Char → Nat
  | [] => 0
  | c :: cs => if p c then runLen p cs + 1 else 0

/-- All ways `r` can match the text `t` starting at index `i`, in Python's
backtracking priority order (greedy quantifiers, left alternative first).
Each outcome is the end index paired with the capture span of the group,
if the group participated in the match. -/
def runRE (t : List Char) : RE → Nat → Option (Nat × Nat) → List (Nat × Option (Nat × Nat))
  | .eps, i, cap => [(i, cap)]
  | .cls p, i, cap =>
      match t[i]? with
      | some c => if p c then [(i + 1, cap)] else []
      | none => []
  | .cat a b, i, cap =>
      (runRE t a i cap).flatMap (fun x => runRE t b x.1 x.2)
  | .alt a b, i, cap => runRE t a i cap ++ runRE t b i cap
  | .opt a, i, cap => runRE t a i cap ++ [(i, cap)]
  | .starCls p, i, cap =>
      let n := runLen p (t.drop i)
      (List.range (n + 1)).map (fun k => (i + (n - k), cap))
  | .repCls p lo hi, i, cap =>
      let n := min (runLen p (t.drop i)) hi
      if n < lo then []
      else (List.range (n - lo + 1)).map (fun k => (i + (n - k), cap))
  | .wb, i, cap =>
      let before := match i with
        | 0 => false
        | j + 1 => (t[j]?).elim false isWordChar
      let after := (t[i]?).elim false isWordChar
      if before ≠ after then [(i, cap)] else []
  | .grp a, i, _ =>
      (runRE t a i none).map (fun x => (x.1, some (i, x.1)))

/-- Scan of candidate start positions for the leftmost match.  `fuel`
counts the candidate positions still to try; the top-level entry supplies
one unit per remaining position, so the scan covers every start position
up to and including the end of the text. -/
def searchFromAux (t : List Char) (r : RE) : Nat → Nat → Option (Nat × Nat × Option (Nat × Nat))
  | 0, _ => none
  | fuel + 1, i =>
      match runRE t r i none with
      | x :: _ => some (i, x.1, x.2)
      | [] => searchFromAux t r fuel (i + 1)

/-- The leftmost match of `r` in `t` at index `i` or later:
`(start, end, capture span)` of the first (priority-ordered) match at the
leftmost matching start position — Python `re.search` behaviour. -/
def searchFrom (t : List Char) (r : RE) (i : Nat) : Option (Nat × Nat × Option (Nat × Nat)) :=
  searchFromAux t r (t.length + 1 - i) i

/-- Text of the capture span (the group's matched substring). -/
def capText (t : List Char) : Option (Nat × Nat) → String
  | some (a, b) => String.mk ((t.drop a).take (b - a))
  | none => ""

/-- Python `re.findall` for a pattern with one capturing group: the list of
`(match start, group text)` for successive non-overlapping leftmost
matches.  `fuel` bounds the scan; the top-level entry supplies
`t.length + 2`, which is enough because each step advances the scan
position by at least one. -/
def findallAux (t : List Char) (r : RE) : Nat → Nat → List (Nat × String)
  | 0, _ => []
  | fuel + 1, i =>
    match searchFrom t r i with
    | none => []
    | some (s, e, cap) =>
        (s, capText t cap) :: findallAux t r fuel (if s < e then e else e + 1)

/-- Python `re.findall(pattern, text)` restricted to one capturing group,
with match start positions. -/
def findallPos (r : RE) (t : List Char) : List (Nat × String) :=
  findallAux t r (t.length + 2) 0

/-- The captures of `re.findall(pattern, text)` in order. -/
def findall (r : RE) (t : List Char) : List String :=
  (findallPos r t).map Prod.snd

/-- Python `re.search(pattern, text)` returning `group(1)`. -/
def search1 (r : RE) (t : List Char) : Option String :=
  (searchFrom t r 0).map (fun x => capText t x.2.2)

/-! ### Pattern syntax helpers (all under `re.IGNORECASE`) -/

/-- A literal character under `re.IGNORECASE`. -/
def lchar (c : Char) : RE := .cls (fun x => x.toLower = c.toLower)

/-- A literal string under `re.IGNORECASE`. -/
def lstr (s : String) : RE := s.toList.foldr (fun c r => .cat (lchar c) r) .eps

/-- Concatenation of a pattern list. -/
def rcat (rs : List RE) : RE := rs.foldr .cat .eps

/-- One-or-more repetition of a character class (`X+`). -/
def plusCls (p : Char → Bool) : RE := .cat (.cls p) (.starCls p)

/-- Python `\s` (ASCII whitespace). -/
def wsChar (c : Char) : Bool :=
  c = ' ' || c = '\t' || c = '\n' || c = '\r' || c = '\x0b' || c = '\x0c'

/-- `[A-Z0-9\-]` under `re.IGNORECASE`. -/
def alnumDash (c : Char) : Bool := c.isAlpha || c.isDigit || c = '-'

/-- `[A-Z]` under `re.IGNORECASE`. -/
def alphaCls (c : Char) : Bool := c.isAlpha

/-- `[A-Z0-9]` under `re.IGNORECASE`. -/
def alnumCls (c : Char) : Bool := c.isAlpha || c.isDigit

/-- `[0-9]`. -/
def digitCls (c : Char) : Bool := c.isDigit

/-- `[^"\';\n]` (any character except double quote, single quote,
semicolon, newline). -/
def nameChar (c : Char) : Bool :=
  !(c = '"' || c = '\'' || c = ';' || c = '\n')

/-- `["\']?`: an optional quote character. -/
def optQuote : RE := .opt (.cls (fun c => c = '"' || c = '\''))

/-- `:?`. -/
def optColon : RE := .opt (lchar ':')

/-! ## The repository's patterns

Each definition transliterates one Python pattern literal from
`spa_multi_agent_system_v8.py` (all compiled with `re.IGNORECASE`). -/

/-- `material_patterns` of `_extract_rfq_data_from_context`. -/
def material_patterns : List RE :=
  [ rcat [lstr "material", plusCls wsChar,
          .opt (rcat [lstr "number", .starCls wsChar]),
          optColon, .starCls wsChar, .grp (plusCls alnumDash)],
    rcat [lstr "for", plusCls wsChar, lstr "material", plusCls wsChar,
          .grp (plusCls alnumDash)],
    rcat [lstr "mat", .starCls wsChar, optColon, .starCls wsChar,
          .grp (plusCls alnumDash)],
    rcat [.wb,
          .grp (rcat [.repCls alphaCls 2 4, lchar '-', .repCls alphaCls 2 4,
                      lchar '-', .repCls alnumCls 3 6, lchar '-',
                      .repCls digitCls 2 2]),
          .wb] ]

/-- `supplier_patterns` of `_extract_rfq_data_from_context`. -/
def supplier_patterns : List RE :=
  [ rcat [lstr "supplier", plusCls wsChar,
          .opt (rcat [lstr "id", .starCls wsChar]),
          optColon, .starCls wsChar, .grp (plusCls alnumDash)],
    rcat [lstr "vendor", plusCls wsChar,
          .opt (rcat [lstr "id", .starCls wsChar]),
          optColon, .starCls wsChar, .grp (plusCls alnumDash)],
    rcat [lstr "to", plusCls wsChar, lstr "vendor", plusCls wsChar,
          .grp (plusCls alnumDash)],
    rcat [lstr "from", plusCls wsChar, lstr "supplier", plusCls wsChar,
          .grp (plusCls alnumDash)],
    rcat [.wb,
          .grp (rcat [.repCls alphaCls 3 5, lchar '-', .repCls alnumCls 3 8]),
          .wb] ]

/-- `quantity_patterns` of `_extract_rfq_data_from_context`. -/
def quantity_patterns : List RE :=
  [ rcat [lstr "quantity", .starCls wsChar, optColon, .starCls wsChar,
          .grp (plusCls digitCls)],
    rcat [lstr "qty", .starCls wsChar, optColon, .starCls wsChar,
          .grp (plusCls digitCls)],
    rcat [lstr "for", plusCls wsChar, lstr "quantity", plusCls wsChar,
          .grp (plusCls digitCls)],
    rcat [lstr "amount", .starCls wsChar, optColon, .starCls wsChar,
          .grp (plusCls digitCls)],
    rcat [.wb, .grp (.repCls digitCls 1 6), plusCls wsChar,
          .alt (rcat [lstr "unit", .opt (lchar 's')])
            (.alt (rcat [lstr "piece", .opt (lchar 's')])
              (rcat [lstr "pc", .opt (lchar 's')]))],
    rcat [.alt (lstr "qty") (lstr "quantity"), plusCls wsChar,
          .grp (plusCls digitCls)] ]

/-- The date group `([0-9]{4}-[0-9]{2}-[0-9]{2})`. -/
def dateGroup : RE :=
  .grp (rcat [.repCls digitCls 4 4, lchar '-', .repCls digitCls 2 2,
              lchar '-', .repCls digitCls 2 2])

/-- `delivery_patterns` of `_extract_rfq_data_from_context`. -/
def delivery_patterns : List RE :=
  [ rcat [lstr "delivery", plusCls wsChar, lstr "date", .starCls wsChar,
          optColon, .starCls wsChar, dateGroup],
    rcat [lstr "delivery", .starCls wsChar, optColon, .starCls wsChar,
          dateGroup],
    rcat [lstr "date", .starCls wsChar, optColon, .starCls wsChar,
          dateGroup],
    rcat [lstr "by", plusCls wsChar, dateGroup],
    rcat [lstr "on", plusCls wsChar, dateGroup] ]

/-- The free-text group `([^"\';\n]+)` flanked by optional quotes. -/
def quotedNameGroup : RE :=
  rcat [optQuote, .grp (plusCls nameChar), optQuote]

/-- `rfq_name_patterns` of `_extract_rfq_data_from_context`. -/
def rfq_name_patterns : List RE :=
  [ rcat [lstr "rfq", plusCls wsChar, lstr "name", .starCls wsChar,
          optColon, .starCls wsChar, quotedNameGroup],
    rcat [lstr "name", .starCls wsChar, optColon, .starCls wsChar,
          quotedNameGroup],
    rcat [lstr "rfq", plusCls wsChar, lstr "title", .starCls wsChar,
          optColon, .starCls wsChar, quotedNameGroup],
    rcat [lstr "title", .starCls wsChar, optColon, .starCls wsChar,
          quotedNameGroup],
    rcat [lstr "call", plusCls wsChar, .alt (lstr "it") (lstr "this"),
          .starCls wsChar, optColon, .starCls wsChar, quotedNameGroup],
    rcat [lstr "name", .opt (lchar 'd'), .starCls wsChar, optColon,
          .starCls wsChar, quotedNameGroup] ]

/-! ## `_extract_rfq_data_from_context` -/

/-- Python `str.strip()`: remove leading and trailing whitespace. -/
def pyStrip (s : String) : String :=
  String.mk (((s.toList.dropWhile wsChar).reverse.dropWhile wsChar).reverse)

/-- The dictionary returned by `_extract_rfq_data_from_context`. -/
structure RFQData where
  material_number : Option String
  supplier_id : Option String
  quantity : Option String
  delivery_date : Option String
  rfq_name : Option String
deriving Repr, DecidableEq

/-- One field-extraction loop of `_extract_rfq_data_from_context`:
`for pattern in patterns: matches = re.findall(...); if matches:
x = matches[-1]; break`. -/
def extractField (pats : List RE) (t : List Char) : Option String :=
  match pats with
  | [] => none
  | p :: rest =>
      let ms := findall p t
      if ms.isEmpty then extractField rest t else ms.getLast?

/-- The combined text `f"{conversation_context}\n{user_input}"`. -/
def fullText (user_input conversation_context : String) : List Char :=
  conversation_context.toList ++ '\n' :: user_input.toList

/-- `_extract_rfq_data_from_context(user_input, conversation_context)`.
The body raises no exceptions (it is pure string processing), so the
`except` branch returning the all-`None` dictionary is unreachable. -/
def extract_rfq_data_from_context
    (user_input : String) (conversation_context : String := "") : RFQData :=
  let t := fullText user_input conversation_context
  { material_number := extractField material_patterns t
    supplier_id := extractField supplier_patterns t
    quantity := extractField quantity_patterns t
    delivery_date := extractField delivery_patterns t
    rfq_name := (extractField rfq_name_patterns t).map pyStrip }

/-! ### Specification-side readings for the extractor -/

/-- All matches of all of a field's patterns in the text, with their start
positions. -/
def allFieldMatches (pats : List RE) (t : List Char) : List (Nat × String) :=
  pats.flatMap (fun p => findallPos p t)

/-- The claim's reading of `_extract_rfq_data_from_context`: the field's
value is the last regex match for that field in the combined text — a
match of one of the field's patterns that starts no earlier than every
other match of any of the field's patterns — and `none` exactly when no
pattern for the field matches anywhere. -/
def IsLastFieldMatch (pats : List RE) (t : List Char) : Option String → Prop
  | none => allFieldMatches pats t = []
  | some c =>
      ∃ m ∈ allFieldMatches pats t, m.2 = c ∧
        ∀ m2 ∈ allFieldMatches pats t, m2.1 ≤ m.1

/-- Amended reading: the field's value is the last `findall` match of the
first pattern in the field's list that matches at all, and `none` when no
pattern matches. -/
def firstMatchingLast (pats : List RE) (t : List Char) : Option String :=
  ((pats.map (fun p => findall p t)).find? (fun l => !l.isEmpty)).bind List.getLast?

/-! ## `validate_rfq_data` -/

/-- `r'material\s+number\s*:?\s*([A-Za-z0-9\-]+)'`. -/
def vMaterialPat : RE :=
  rcat [lstr "material", plusCls wsChar, lstr "number", .starCls wsChar,
        optColon, .starCls wsChar, .grp (plusCls alnumDash)]

/-- `r'supplier\s+id\s*:?\s*([A-Za-z0-9\-]+)'`. -/
def vSupplierPat : RE :=
  rcat [lstr "supplier", plusCls wsChar, lstr "id", .starCls wsChar,
        optColon, .starCls wsChar, .grp (plusCls alnumDash)]

/-- `r'quantity\s*:?\s*([0-9]+)'`. -/
def vQuantityPat : RE :=
  rcat [lstr "quantity", .starCls wsChar, optColon, .starCls wsChar,
        .grp (plusCls digitCls)]

/-- `r'delivery\s+date\s*:?\s*([0-9]{4}-[0-9]{2}-[0-9]{2})'`. -/
def vDeliveryPat : RE :=
  rcat [lstr "delivery", plusCls wsChar, lstr "date", .starCls wsChar,
        optColon, .starCls wsChar, dateGroup]

/-- Python truthiness test `not value` for an optional string. -/
def optFalsy : Option String → Bool
  | none => true
  | some s => s = ""

/-- `json.dumps(extracted_data)` for the success branch of
`validate_rfq_data`: the four captured values contain only letters,
digits and dashes, so no JSON escaping arises. -/
def validateJson (m s q d : String) : String :=
  "\x7b\"material_number\": \"" ++ m ++ "\", \"supplier_id\": \"" ++ s ++
    "\", \"quantity\": \"" ++ q ++ "\", \"delivery_date\": \"" ++ d ++ "\"\x7d"

/-- `validate_rfq_data(user_input)`.  The field titles are the computed
values of `field.replace('_', ' ').title()` for the dictionary keys, in
the dictionary's insertion order.  The body raises no exceptions, so the
`except` branch is unreachable. -/
def validate_rfq_data (user_input : String) : String :=
  let t := user_input.toList
  let m := search1 vMaterialPat t
  let s := search1 vSupplierPat t
  let q := search1 vQuantityPat t
  let d := search1 vDeliveryPat t
  let missing := (([("Material Number", m), ("Supplier Id", s),
      ("Quantity", q), ("Delivery Date", d)].filter
        (fun fv => optFalsy fv.2)).map Prod.fst)
  if !missing.isEmpty then
    "Missing required information: " ++ String.intercalate ", " missing
  else
    "RFQ data validated successfully: " ++
      validateJson (m.getD "") (s.getD "") (q.getD "") (d.getD "")

/-- The claim's reading of `validate_rfq_data`: the missing-fields message
lists exactly the fields whose pattern does not match (`re.search` finds
no match), in the fixed order material number, supplier id, quantity,
delivery date; when all four patterns match, the success message carries
the JSON of the four extracted values. -/
def c4Spec (user_input : String) : String :=
  let t := user_input.toList
  let missing := (([("Material Number", vMaterialPat), ("Supplier Id", vSupplierPat),
      ("Quantity", vQuantityPat), ("Delivery Date", vDeliveryPat)].filter
        (fun fp => (search1 fp.2 t).isNone)).map Prod.fst)
  if missing = [] then
    "RFQ data validated successfully: " ++
      validateJson ((search1 vMaterialPat t).getD "") ((search1 vSupplierPat t).getD "")
        ((search1 vQuantityPat t).getD "") ((search1 vDeliveryPat t).getD "")
  else
    "Missing required information: " ++ String.intercalate ", " missing

/-! ## Engine lemmas -/

/-- `r` contains no capturing group. -/
def grpFree : RE → Bool
  | .eps => true
  | .cls _ => true
  | .cat a b => grpFree a && grpFree b
  | .alt a b => grpFree a && grpFree b
  | .opt a => grpFree a
  | .starCls _ => true
  | .repCls _ _ _ => true
  | .wb => true
  | .grp _ => false

/-- The first thing `r` does is consume at least one character. -/
def firstConsumes : RE → Bool
  | .cls _ => true
  | .cat a _ => firstConsumes a
  | .repCls _ lo _ => decide (1 ≤ lo)
  | .grp a => firstConsumes a
  | _ => false

theorem mem_runRE_le (t : List Char) (r : RE) :
    ∀ i cap0 x, x ∈ runRE t r i cap0 → i ≤ x.1 := by
  induction r with
  | eps =>
      intro i cap0 x hx
      simp only [runRE, List.mem_singleton] at hx
      simp [hx]
  | cls p =>
      intro i cap0 x hx
      cases hg : t[i]? with
      | none => simp [runRE, hg] at hx
      | some c =>
          by_cases hp : p c
          · simp [runRE, hg, hp] at hx; simp [hx]
          · simp [runRE, hg, hp] at hx
  | cat a b iha ihb =>
      intro i cap0 x hx
      simp only [runRE, List.mem_flatMap] at hx
      obtain ⟨y, hy, hx⟩ := hx
      exact le_trans (iha i cap0 y hy) (ihb y.1 y.2 x hx)
  | alt a b iha ihb =>
      intro i cap0 x hx
      simp only [runRE, List.mem_append] at hx
      rcases hx with hx | hx
      · exact iha i cap0 x hx
      · exact ihb i cap0 x hx
  | opt a iha =>
      intro i cap0 x hx
      simp only [runRE, List.mem_append, List.mem_singleton] at hx
      rcases hx with hx | hx
      · exact iha i cap0 x hx
      · simp [hx]
  | starCls p =>
      intro i cap0 x hx
      simp only [runRE, List.mem_map, List.mem_range] at hx
      obtain ⟨k, _, hk⟩ := hx
      simp [← hk]
  | repCls p lo hi =>
      intro i cap0 x hx
      simp only [runRE] at hx
      split at hx
      · simp at hx
      · simp only [List.mem_map, List.mem_range] at hx
        obtain ⟨k, _, hk⟩ := hx
        simp [← hk]
  | wb =>
      intro i cap0 x hx
      simp only [runRE] at hx
      split at hx
      · simp only [List.mem_singleton] at hx; simp [hx]
      · simp at hx
  | grp a iha =>
      intro i cap0 x hx
      simp only [runRE, List.mem_map] at hx
      obtain ⟨z, hz, hzx⟩ := hx
      have := iha i none z hz
      simp [← hzx]; omega

theorem mem_runRE_cap_of_grpFree (t : List Char) (r : RE) (hr : grpFree r = true) :
    ∀ i cap0 x, x ∈ runRE t r i cap0 → x.2 = cap0 := by
  induction r with
  | eps =>
      intro i cap0 x hx
      simp only [runRE, List.mem_singleton] at hx
      simp [hx]
  | cls p =>
      intro i cap0 x hx
      cases hg : t[i]? with
      | none => simp [runRE, hg] at hx
      | some c =>
          by_cases hp : p c
          · simp [runRE, hg, hp] at hx; simp [hx]
          · simp [runRE, hg, hp] at hx
  | cat a b iha ihb =>
      simp only [grpFree, Bool.and_eq_true] at hr
      intro i cap0 x hx
      simp only [runRE, List.mem_flatMap] at hx
      obtain ⟨y, hy, hx⟩ := hx
      rw [ihb hr.2 y.1 y.2 x hx, iha hr.1 i cap0 y hy]
  | alt a b iha ihb =>
      simp only [grpFree, Bool.and_eq_true] at hr
      intro i cap0 x hx
      simp only [runRE, List.mem_append] at hx
      rcases hx with hx | hx
      · exact iha hr.1 i cap0 x hx
      · exact ihb hr.2 i cap0 x hx
  | opt a iha =>
      simp only [grpFree] at hr
      intro i cap0 x hx
      simp only [runRE, List.mem_append, List.mem_singleton] at hx
      rcases hx with hx | hx
      · exact iha hr i cap0 x hx
      · simp [hx]
  | starCls p =>
      intro i cap0 x hx
      simp only [runRE, List.mem_map, List.mem_range] at hx
      obtain ⟨k, _, hk⟩ := hx
      simp [← hk]
  | repCls p lo hi =>
      intro i cap0 x hx
      simp only [runRE] at hx
      split at hx
      · simp at hx
      · simp only [List.mem_map, List.mem_range] at hx
        obtain ⟨k, _, hk⟩ := hx
        simp [← hk]
  | wb =>
      intro i cap0 x hx
      simp only [runRE] at hx
      split at hx
      · simp only [List.mem_singleton] at hx; simp [hx]
      · simp at hx
  | grp a _ => simp [grpFree] at hr

theorem mem_runRE_firstConsumes (t : List Char) (r : RE) (hr : firstConsumes r = true) :
    ∀ i cap0 x, x ∈ runRE t r i cap0 → i < x.1 ∧ i < t.length := by
  induction r with
  | eps => simp [firstConsumes] at hr
  | cls p =>
      intro i cap0 x hx
      cases hg : t[i]? with
      | none => simp [runRE, hg] at hx
      | some c =>
          by_cases hp : p c
          · simp only [runRE, hg, hp, if_true, List.mem_singleton] at hx
            have hlen : ¬ t.length ≤ i := by
              intro hle
              rw [List.getElem?_eq_none hle] at hg
              exact Option.noConfusion hg
            constructor
            · simp [hx]
            · omega
          · simp [runRE, hg, hp] at hx
  | cat a b iha _ =>
      simp only [firstConsumes] at hr
      intro i cap0 x hx
      simp only [runRE, List.mem_flatMap] at hx
      obtain ⟨y, hy, hx⟩ := hx
      obtain ⟨h1, h2⟩ := iha hr i cap0 y hy
      exact ⟨lt_of_lt_of_le h1 (mem_runRE_le t b y.1 y.2 x hx), h2⟩
  | alt a b _ _ => simp [firstConsumes] at hr
  | opt a _ => simp [firstConsumes] at hr
  | starCls p => simp [firstConsumes] at hr
  | repCls p lo hi =>
      simp only [firstConsumes, decide_eq_true_eq] at hr
      intro i cap0 x hx
      simp only [runRE] at hx
      split at hx
      · simp at hx
      · rename_i hguard
        simp only [List.mem_map, List.mem_range] at hx
        obtain ⟨k, hkr, hk⟩ := hx
        have hrl : lo ≤ min (runLen p (t.drop i)) hi := by omega
        have hrun : 1 ≤ runLen p (t.drop i) := by omega
        have hdrop : t.drop i ≠ [] := by
          intro hnil
          rw [hnil] at hrun
          simp [runLen] at hrun
        have hilen : i < t.length := by
          by_contra hle
          exact hdrop (List.drop_eq_nil_of_le (by omega))
        constructor
        · have : 1 ≤ min (runLen p (t.drop i)) hi - k := by omega
          simp [← hk]; omega
        · exact hilen
  | wb => simp [firstConsumes] at hr
  | grp a iha =>
      simp only [firstConsumes] at hr
      intro i cap0 x hx
      simp only [runRE, List.mem_map] at hx
      obtain ⟨z, hz, hzx⟩ := hx
      obtain ⟨h1, h2⟩ := iha hr i none z hz
      constructor
      · simpa [← hzx] using h1
      · exact h2

theorem mem_runRE_rcat_grp (t : List Char) (inner : RE) :
    ∀ front : List RE, (∀ r ∈ front, grpFree r = true) →
    ∀ i cap0 x, x ∈ runRE t (rcat (front ++ [.grp inner])) i cap0 →
    ∃ j z, z ∈ runRE t inner j none ∧ x.2 = some (j, z.1) := by
  intro front
  induction front with
  | nil =>
      intro _ i cap0 x hx
      simp only [List.nil_append, rcat, List.foldr, runRE, List.mem_flatMap,
        List.mem_map, List.mem_singleton] at hx
      obtain ⟨y, ⟨z, hz, hzy⟩, hxy⟩ := hx
      refine ⟨i, z, hz, ?_⟩
      rw [hxy, ← hzy]
  | cons r rest ih =>
      intro hfree i cap0 x hx
      simp only [List.cons_append, rcat, List.foldr, runRE, List.mem_flatMap] at hx
      obtain ⟨y, hy, hx⟩ := hx
      have hcap := mem_runRE_cap_of_grpFree t r (hfree r (by simp)) i cap0 y hy
      rw [hcap] at hx
      exact ih (fun r2 hr2 => hfree r2 (by simp [hr2])) y.1 cap0 x hx

theorem searchFromAux_mem (t : List Char) (r : RE) :
    ∀ fuel i s e cap, searchFromAux t r fuel i = some (s, e, cap) →
    (e, cap) ∈ runRE t r s none := by
  intro fuel
  induction fuel with
  | zero => intro i s e cap h; simp [searchFromAux] at h
  | succ n ih =>
      intro i s e cap h
      rw [searchFromAux] at h
      cases hr : runRE t r i none with
      | nil => rw [hr] at h; exact ih _ _ _ _ h
      | cons x xs =>
          rw [hr] at h
          simp only [Option.some.injEq, Prod.mk.injEq] at h
          obtain ⟨h1, h2, h3⟩ := h
          subst h1 h2 h3
          rw [hr]
          exact List.mem_cons_self x xs

theorem capText_ne_empty (t : List Char) (j k : Nat)
    (hjk : j < k) (hj : j < t.length) : capText t (some (j, k)) ≠ "" := by
  have hred : capText t (some (j, k)) = String.mk ((t.drop j).take (k - j)) := rfl
  rw [hred]
  have hd : t.drop j ≠ [] := by
    intro hnil
    have := List.drop_eq_nil_iff.mp hnil
    omega
  cases hcons : t.drop j with
  | nil => exact absurd hcons hd
  | cons c cs =>
      have hk1 : k - j = (k - j - 1) + 1 := by omega
      rw [hk1]
      simp only [List.take]
      intro h
      have hdata : c :: List.take (k - j - 1) cs = ("" : String).data :=
        congrArg String.data h
      simp at hdata

theorem search1_ne_some_empty (front : List RE) (inner : RE)
    (hfree : ∀ r ∈ front, grpFree r = true) (hcons : firstConsumes inner = true)
    (t : List Char) : search1 (rcat (front ++ [.grp inner])) t ≠ some "" := by
  intro h
  unfold search1 at h
  cases hs : searchFrom t (rcat (front ++ [.grp inner])) 0 with
  | none => rw [hs] at h; exact Option.noConfusion h
  | some res =>
      rw [hs] at h
      obtain ⟨s, e, cap⟩ := res
      have hs2 : searchFromAux t (rcat (front ++ [.grp inner])) (t.length + 1 - 0) 0 =
          some (s, e, cap) := hs
      have hmem := searchFromAux_mem t (rcat (front ++ [.grp inner])) _ _ _ _ _ hs2
      obtain ⟨j, z, hz, hcap⟩ := mem_runRE_rcat_grp t inner front hfree s none (e, cap) hmem
      obtain ⟨h1, h2⟩ := mem_runRE_firstConsumes t inner hcons j none z hz
      simp only [Option.map] at h
      injection h with h
      simp only at hcap
      rw [hcap] at h
      exact capText_ne_empty t j z.1 h1 h2 h

theorem search1_vMaterialPat_ne_some_empty (t : List Char) :
    search1 vMaterialPat t ≠ some "" :=
  search1_ne_some_empty
    [lstr "material", plusCls wsChar, lstr "number", .starCls wsChar,
      optColon, .starCls wsChar] (plusCls alnumDash)
    (by intro r hr
        simp only [List.mem_cons, List.not_mem_nil, or_false] at hr
        rcases hr with rfl | rfl | rfl | rfl | rfl | rfl <;> decide) rfl t

theorem search1_vSupplierPat_ne_some_empty (t : List Char) :
    search1 vSupplierPat t ≠ some "" :=
  search1_ne_some_empty
    [lstr "supplier", plusCls wsChar, lstr "id", .starCls wsChar,
      optColon, .starCls wsChar] (plusCls alnumDash)
    (by intro r hr
        simp only [List.mem_cons, List.not_mem_nil, or_false] at hr
        rcases hr with rfl | rfl | rfl | rfl | rfl | rfl <;> decide) rfl t

theorem search1_vQuantityPat_ne_some_empty (t : List Char) :
    search1 vQuantityPat t ≠ some "" :=
  search1_ne_some_empty
    [lstr "quantity", .starCls wsChar, optColon, .starCls wsChar]
    (plusCls digitCls)
    (by intro r hr
        simp only [List.mem_cons, List.not_mem_nil, or_false] at hr
        rcases hr with rfl | rfl | rfl | rfl <;> decide) rfl t

theorem search1_vDeliveryPat_ne_some_empty (t : List Char) :
    search1 vDeliveryPat t ≠ some "" :=
  search1_ne_some_empty
    [lstr "delivery", plusCls wsChar, lstr "date", .starCls wsChar,
      optColon, .starCls wsChar]
    (rcat [.repCls digitCls 4 4, lchar '-', .repCls digitCls 2 2,
           lchar '-', .repCls digitCls 2 2])
    (by intro r hr
        simp only [List.mem_cons, List.not_mem_nil, or_false] at hr
        rcases hr with rfl | rfl | rfl | rfl | rfl | rfl <;> decide)
    (by decide) t

theorem optFalsy_of_ne_empty {o : Option String} (h : o ≠ some "") :
    optFalsy o = o.isNone := by
  cases o with
  | none => rfl
  | some s =>
      have hs : s ≠ "" := fun he => h (by rw [he])
      simp [optFalsy, hs]

theorem extractField_eq_firstMatchingLast (pats : List RE) (t : List Char) :
    extractField pats t = firstMatchingLast pats t := by
  induction pats with
  | nil => rfl
  | cons p rest ih =>
      simp only [extractField, firstMatchingLast, List.map_cons]
      by_cases h : (findall p t).isEmpty
      · rw [List.find?_cons_of_neg _ (by simp [h]), if_pos h, ih, firstMatchingLast]
      · rw [List.find?_cons_of_pos _ (by simp [h]), if_neg h]
        simp

/-! ## C1, C4 -/

/-- C1 counterexample: on the input `"quantity 5 then qty 9"` (with empty
conversation context), `_extract_rfq_data_from_context` returns `"5"` for
the quantity field, yet `"5"` is not the last regex match for the quantity
field in the combined text — the last match (of both the `qty` pattern and
the `(?:qty|quantity)` pattern, at the latest start position) is `"9"`.
This refutes the claim that every field equals the last regex match for
that field in the combined text. -/
theorem c1_counterexample :
    (extract_rfq_data_from_context "quantity 5 then qty 9" "").quantity = some "5" ∧
    ¬ IsLastFieldMatch quantity_patterns
        (fullText "quantity 5 then qty 9" "") (some "5") ∧
    IsLastFieldMatch quantity_patterns
        (fullText "quantity 5 then qty 9" "") (some "9") := by
  refine ⟨by decide, ?_, ?_⟩
  · unfold IsLastFieldMatch
    decide
  · unfold IsLastFieldMatch
    decide

/-- C1 (amended): for every user input and conversation context, each field
of `_extract_rfq_data_from_context` equals the last `findall` match of the
first pattern in the field's pattern list that matches anywhere in the
combined text (conversation context, newline, user input), is `None` when
no pattern for the field matches, and `rfq_name` is additionally stripped
of surrounding whitespace. -/
theorem c1_extract_first_matching_pattern_last (u ctx : String) :
    extract_rfq_data_from_context u ctx =
      { material_number := firstMatchingLast material_patterns (fullText u ctx)
        supplier_id := firstMatchingLast supplier_patterns (fullText u ctx)
        quantity := firstMatchingLast quantity_patterns (fullText u ctx)
        delivery_date := firstMatchingLast delivery_patterns (fullText u ctx)
        rfq_name := (firstMatchingLast rfq_name_patterns (fullText u ctx)).map pyStrip } := by
  simp only [extract_rfq_data_from_context, extractField_eq_firstMatchingLast]

/-- C4: for every input string, `validate_rfq_data` returns the message
`Missing required information: ...` listing exactly those fields among
material number, supplier id, quantity and delivery date whose pattern
does not match the input, in that fixed order, and returns the success
message carrying the JSON of the four extracted values precisely when all
four patterns match. -/
theorem c4_validate_rfq_data_spec (user_input : String) :
    validate_rfq_data user_input = c4Spec user_input := by
  have hmn := search1_vMaterialPat_ne_some_empty user_input.toList
  have hsn := search1_vSupplierPat_ne_some_empty user_input.toList
  have hqn := search1_vQuantityPat_ne_some_empty user_input.toList
  have hdn := search1_vDeliveryPat_ne_some_empty user_input.toList
  simp only [validate_rfq_data, c4Spec]
  rcases hm : search1 vMaterialPat user_input.toList with _ | mv <;>
    rcases hs2 : search1 vSupplierPat user_input.toList with _ | sv <;>
      rcases hq2 : search1 vQuantityPat user_input.toList with _ | qv <;>
        rcases hd2 : search1 vDeliveryPat user_input.toList with _ | dv <;>
          rw [hm] at hmn <;> rw [hs2] at hsn <;> rw [hq2] at hqn <;>
            rw [hd2] at hdn <;>
          simp_all [optFalsy, List.filter]

/-! ## Athena polling (`check_query_status`, `get_query_results`)

AWS responses are supplied through an environment.  A call that raises an
exception is modelled as `Except.error msg`; `time.sleep(1)` calls are
counted. -/

/-- The payload of a successful `athena.get_query_results` call:
`ResultSet.Rows`, each row a list of columns, each column the `items()`
of its data dictionary. -/
structure QueryResults where
  rows : List (List (List (String × String)))
deriving Repr, DecidableEq

/-- Environment of one `get_query_results(execution_id)` call. -/
structure AthenaEnv where
  /-- Result of the `i`-th `check_query_status` call (the query state, or
  an exception). -/
  states : Nat → Except String String
  /-- Result of `athena.get_query_results` in the success branch. -/
  fetchResults : Except String QueryResults
  /-- `StateChangeReason` (if present) from the `get_query_execution` call
  in the failure branch, or an exception. -/
  fetchReason : Except String (Option String)

/-- `check_query_status(execution_id)` for the `i`-th poll. -/
def check_query_status (env : AthenaEnv) (i : Nat) : Except String String :=
  env.states i

/-- `status in ['SUCCEEDED', 'FAILED', 'CANCELLED']`. -/
def isTerminalState (s : String) : Bool :=
  s = "SUCCEEDED" || s = "FAILED" || s = "CANCELLED"

/-- The `while wait_count < max_wait` loop of `get_query_results`, polling
from index `i` with `fuel` iterations remaining.  Returns the last
observed status together with the number of polls and the number of
one-second sleeps performed (each non-terminal poll is followed by one
`time.sleep(1)`). -/
def athenaWaitAux (env : AthenaEnv) : Nat → Nat → Except String (String × Nat × Nat)
  | _, 0 => .ok ("", 0, 0)
  | i, fuel + 1 =>
      match check_query_status env i with
      | .error e => .error e
      | .ok s =>
          if isTerminalState s then .ok (s, 1, 0)
          else
            match fuel with
            | 0 => .ok (s, 1, 1)
            | _ + 1 =>
                match athenaWaitAux env (i + 1) fuel with
                | .error e => .error e
                | .ok (st, p, sl) => .ok (st, p + 1, sl + 1)

/-- The value returned by `get_query_results`: either the Athena results
payload or the `{"error": ...}` dictionary. -/
inductive QueryOutcome where
  | results (r : QueryResults)
  | errorDict (msg : String)
deriving Repr, DecidableEq

/-- `get_query_results(execution_id)` with `max_wait = 30`, paired with
the poll count and sleep count of its wait loop. -/
def get_query_results (env : AthenaEnv) : Except String (QueryOutcome × Nat × Nat) :=
  match athenaWaitAux env 0 30 with
  | .error e => .error e
  | .ok (status, polls, sleeps) =>
      if status = "SUCCEEDED" then
        match env.fetchResults with
        | .error e => .error e
        | .ok r => .ok (.results r, polls, sleeps)
      else
        match env.fetchReason with
        | .error e => .error e
        | .ok reason =>
            .ok (.errorDict ("Query failed: " ++ reason.getD "Unknown error"),
              polls, sleeps)

/-- An environment in which no AWS call raises: the state sequence, the
state change reason and the results payload are given directly. -/
def pureAthenaEnv (seq : Nat → String) (reason : Option String)
    (res : QueryResults) : AthenaEnv :=
  { states := fun i => .ok (seq i)
    fetchResults := .ok res
    fetchReason := .ok reason }

theorem check_query_status_pure (seq : Nat → String) (reason : Option String)
    (res : QueryResults) (i : Nat) :
    check_query_status (pureAthenaEnv seq reason res) i = .ok (seq i) := rfl

theorem athenaWaitAux_pure_spec (seq : Nat → String) (reason : Option String)
    (res : QueryResults) :
    ∀ fuel i, 1 ≤ fuel →
    ∃ st p sl, athenaWaitAux (pureAthenaEnv seq reason res) i fuel = .ok (st, p, sl) ∧
      1 ≤ p ∧ p ≤ fuel ∧ st = seq (i + p - 1) ∧
      (∀ k, k < p - 1 → ¬ isTerminalState (seq (i + k))) ∧
      (isTerminalState st ∨ p = fuel) ∧
      (isTerminalState st → sl = p - 1) ∧
      (¬ isTerminalState st → sl = p ∧ p = fuel) := by
  intro fuel
  induction fuel with
  | zero => omega
  | succ n ih =>
      intro i _
      by_cases hterm : isTerminalState (seq i)
      · refine ⟨seq i, 1, 0, ?_, le_refl 1, by omega, ?_, ?_, Or.inl hterm,
          fun _ => rfl, fun h => absurd hterm h⟩
        · rw [athenaWaitAux, check_query_status_pure]
          simp [hterm]
        · simp
        · intro k hk
          omega
      · cases n with
        | zero =>
            refine ⟨seq i, 1, 1, ?_, le_refl 1, le_refl 1, ?_, ?_, Or.inr rfl,
              fun h => absurd h hterm, fun _ => ⟨rfl, rfl⟩⟩
            · rw [athenaWaitAux, check_query_status_pure]
              simp [hterm]
            · simp
            · intro k hk
              omega
        | succ m =>
            obtain ⟨st, p, sl, heq, hp1, hpf, hst, hnt, hor, hsl1, hsl2⟩ :=
              ih (i + 1) (by omega)
            refine ⟨st, p + 1, sl + 1, ?_, by omega, by omega, ?_, ?_, ?_, ?_, ?_⟩
            · rw [athenaWaitAux, check_query_status_pure]
              simp [hterm, heq]
            · rw [hst]
              congr 1
              omega
            · intro k hk
              cases k with
              | zero => simpa using hterm
              | succ k2 =>
                  have h2 := hnt k2 (by omega)
                  have harg : i + 1 + k2 = i + (k2 + 1) := by omega
                  rwa [harg] at h2
            · rcases hor with h | h
              · exact Or.inl h
              · exact Or.inr (by omega)
            · intro h
              have := hsl1 h
              omega
            · intro h
              have := hsl2 h
              omega

/-- C2: for every sequence of Athena query states, `get_query_results`
polls at most 30 times, stops as soon as the observed state is terminal
(`SUCCEEDED`, `FAILED`, `CANCELLED`), sleeps one second after every
non-terminal poll, returns the query results exactly when the last
observed state is `SUCCEEDED`, and otherwise returns a dictionary whose
`error` value carries the query's state change reason (`Unknown error`
when none is present). -/
theorem c2_get_query_results_polling (seq : Nat → String) (reason : Option String)
    (res : QueryResults) :
    ∃ out polls sleeps,
      get_query_results (pureAthenaEnv seq reason res) = .ok (out, polls, sleeps) ∧
      1 ≤ polls ∧ polls ≤ 30 ∧
      (∀ k, k < polls - 1 → ¬ isTerminalState (seq k)) ∧
      (isTerminalState (seq (polls - 1)) ∨ polls = 30) ∧
      (out = .results res ↔ seq (polls - 1) = "SUCCEEDED") ∧
      (seq (polls - 1) ≠ "SUCCEEDED" →
        out = .errorDict ("Query failed: " ++ reason.getD "Unknown error")) ∧
      (isTerminalState (seq (polls - 1)) → sleeps = polls - 1) ∧
      (¬ isTerminalState (seq (polls - 1)) → sleeps = polls) := by
  obtain ⟨st, p, sl, heq, hp1, hpf, hst, hnt, hor, hsl1, hsl2⟩ :=
    athenaWaitAux_pure_spec seq reason res 30 0 (by omega)
  simp only [Nat.zero_add] at hst hnt
  by_cases hsucc : st = "SUCCEEDED"
  · refine ⟨.results res, p, sl, ?_, hp1, hpf, hnt, ?_, ?_, ?_, ?_, ?_⟩
    · unfold get_query_results
      rw [heq]
      simp [hsucc, pureAthenaEnv]
    · rcases hor with h | h
      · exact Or.inl (hst ▸ h)
      · exact Or.inr (by omega)
    · simp [← hst, hsucc]
    · intro h
      exact absurd (hst ▸ hsucc) h
    · intro h
      exact hsl1 (by rwa [← hst] at h)
    · intro h
      exact (hsl2 (by rwa [← hst] at h)).1
  · refine ⟨.errorDict ("Query failed: " ++ reason.getD "Unknown error"), p, sl,
      ?_, hp1, hpf, hnt, ?_, ?_, ?_, ?_, ?_⟩
    · unfold get_query_results
      rw [heq]
      simp [hsucc, pureAthenaEnv]
    · rcases hor with h | h
      · exact Or.inl (hst ▸ h)
      · exact Or.inr (by omega)
    · constructor
      · intro h
        exact absurd h (by simp)
      · intro h
        rw [← hst] at h
        exact absurd h hsucc
    · intro _
      rfl
    · intro h
      exact hsl1 (by rwa [← hst] at h)
    · intro h
      exact (hsl2 (by rwa [← hst] at h)).1

/-- Witness for C2 at a concrete state sequence (two `RUNNING` polls, then
`SUCCEEDED`). -/
theorem c2_witness :
    ∃ out polls sleeps,
      get_query_results (pureAthenaEnv
        (fun i => if i < 2 then "RUNNING" else "SUCCEEDED") none ⟨[]⟩) =
          .ok (out, polls, sleeps) ∧
      1 ≤ polls ∧ polls ≤ 30 ∧
      (∀ k, k < polls - 1 →
        ¬ isTerminalState (if k < 2 then "RUNNING" else "SUCCEEDED")) ∧
      (isTerminalState (if polls - 1 < 2 then "RUNNING" else "SUCCEEDED") ∨
        polls = 30) ∧
      (out = .results ⟨[]⟩ ↔
        (if polls - 1 < 2 then "RUNNING" else "SUCCEEDED") = "SUCCEEDED") ∧
      ((if polls - 1 < 2 then "RUNNING" else "SUCCEEDED") ≠ "SUCCEEDED" →
        out = .errorDict ("Query failed: " ++ (none : Option String).getD "Unknown error")) ∧
      (isTerminalState (if polls - 1 < 2 then "RUNNING" else "SUCCEEDED") →
        sleeps = polls - 1) ∧
      (¬ isTerminalState (if polls - 1 < 2 then "RUNNING" else "SUCCEEDED") →
        sleeps = polls) :=
  c2_get_query_results_polling (fun i => if i < 2 then "RUNNING" else "SUCCEEDED")
    none ⟨[]⟩

/-! ## Agent tools (`query_athena`, `check_vendor_compliance`,
`lookup_schema`)

Each tool body is embedded in an exception monad (`Except String`), with
the `try`/`except Exception` wrapper made explicit: a tool result of
`.error e` would mean the exception `e` propagated to the caller. -/

/-- Environment of the AWS calls made by the Athena-backed tools. -/
structure ToolAwsEnv where
  /-- `athena.start_query_execution` on the given SQL string: the
  execution id, or an exception. -/
  startQuery : String → Except String String
  /-- Environment of the `get_query_results` call. -/
  athena : AthenaEnv

/-- The inner loop of the row formatting: the first truthy `data_value` of
a column's `items()`, else the empty string. -/
def colValue (col : List (String × String)) : String :=
  match col.find? (fun kv => kv.2 ≠ "") with
  | some kv => kv.2
  | none => ""

/-- The row-formatting loop shared by `query_athena` and
`check_vendor_compliance`: tab-joined column values, newline-joined rows. -/
def formatRows (rows : List (List (List (String × String)))) : String :=
  String.intercalate "\n" (rows.map (fun row =>
    String.intercalate "\t" (row.map colValue)))

/-- The `try` body of `query_athena(query)`. -/
def query_athena_body (env : ToolAwsEnv) (query : String) : Except String String :=
  match env.startQuery query with
  | .error e => .error e
  | .ok _execution_id =>
      match get_query_results env.athena with
      | .error e => .error e
      | .ok (result, _, _) =>
          match result with
          | .errorDict msg => .ok msg
          | .results r =>
              let rows := r.rows
              if rows.isEmpty then .ok "No results found for your query."
              else .ok (formatRows rows)

/-- `query_athena(query)` with its `except Exception` handler. -/
def query_athena (env : ToolAwsEnv) (query : String) : Except String String :=
  match query_athena_body env query with
  | .ok s => .ok s
  | .error e => .ok ("Error executing query: " ++ e)

/-- The context-reference phrases checked by `check_vendor_compliance`. -/
def contextPhrases : List String :=
  ["context", "previous", "these", "those", "mentioned", "these vendors",
   "those suppliers"]

/-- The compliance SQL f-string with `vendor_conditions` interpolated. -/
def complianceQuery (vendor_conditions : String) : String :=
  "\n        SELECT \n             vendor_number, \"REACH Compliant\", \"ROHS Compliant\", \"CMRT\", \"RBA\"\n        FROM v_compliance_by_vendor\n        WHERE vendor_number IN ('" ++
    vendor_conditions ++ "')\n        ORDER BY vendor_number\n        "

/-- The `try` body of `check_vendor_compliance(vendor_numbers)`. -/
def check_vendor_compliance_body (env : ToolAwsEnv) (vendor_numbers : String) :
    Except String String :=
  if contextPhrases.contains vendor_numbers.toLower then
    .ok "I can see you're referring to previously mentioned vendors. Please provide the specific vendor numbers, or I can help if you tell me which material's vendors you want compliance data for."
  else
    let vn := if vendor_numbers.startsWith "[" && vendor_numbers.endsWith "]"
      then ((((vendor_numbers.replace "[" "").replace "]" "").replace
        "\"" "").replace "'" "")
      else vendor_numbers
    let vendor_list := ((vn.splitOn ",").map pyStrip).filter (fun v => v ≠ "")
    if vendor_list.isEmpty then
      .ok "Please provide vendor numbers to check compliance data."
    else
      let vendor_conditions := String.intercalate "','" vendor_list
      match env.startQuery (complianceQuery vendor_conditions) with
      | .error e => .error e
      | .ok _execution_id =>
          match get_query_results env.athena with
          | .error e => .error e
          | .ok (result, _, _) =>
              match result with
              | .errorDict msg =>
                  .ok ("Error querying compliance database: " ++ msg)
              | .results r =>
                  let rows := r.rows
                  if rows.length ≤ 1 then
                    .ok ("No compliance data found for vendors: " ++
                      String.intercalate ", " vendor_list ++
                      ". Please verify these vendor numbers exist in your compliance system.")
                  else .ok (formatRows rows)

/-- `check_vendor_compliance(vendor_numbers)` with its handler. -/
def check_vendor_compliance (env : ToolAwsEnv) (vendor_numbers : String) :
    Except String String :=
  match check_vendor_compliance_body env vendor_numbers with
  | .ok s => .ok s
  | .error e => .ok ("Error retrieving compliance data: " ++ e)

/-- Environment of the Bedrock Knowledge Base call: the content texts of
the `retrievalResults` for the question, or an exception. -/
structure KbEnv where
  retrieve : String → Except String (List String)

/-- The `try` body of `lookup_schema(question)`. -/
def lookup_schema_body (env : KbEnv) (question : String) : Except String String :=
  match env.retrieve question with
  | .error e => .error e
  | .ok docs =>
      if docs.isEmpty then .ok "No schema information found for your query."
      else .ok (String.intercalate "\n" docs)

/-- `lookup_schema(question)` with its handler. -/
def lookup_schema (env : KbEnv) (question : String) : Except String String :=
  match lookup_schema_body env question with
  | .ok s => .ok s
  | .error e => .ok ("Error accessing schema information: " ++ e)

/-- C3: the agent tools never propagate an exception: for every
environment (including ones whose AWS calls raise) and every input, each
tool returns a string, and when the tool body raised an exception the
returned string describes that error with the tool's error prefix. -/
theorem c3_tools_return_strings (env : ToolAwsEnv) (kb : KbEnv)
    (query vendors question : String) :
    (∃ s, query_athena env query = .ok s) ∧
    (∃ s, check_vendor_compliance env vendors = .ok s) ∧
    (∃ s, lookup_schema kb question = .ok s) ∧
    (∀ e, query_athena_body env query = .error e →
      query_athena env query = .ok ("Error executing query: " ++ e)) ∧
    (∀ e, check_vendor_compliance_body env vendors = .error e →
      check_vendor_compliance env vendors =
        .ok ("Error retrieving compliance data: " ++ e)) ∧
    (∀ e, lookup_schema_body kb question = .error e →
      lookup_schema kb question =
        .ok ("Error accessing schema information: " ++ e)) := by
  refine ⟨?_, ?_, ?_, ?_, ?_, ?_⟩
  · unfold query_athena
    cases query_athena_body env query with
    | ok s => exact ⟨s, rfl⟩
    | error e => exact ⟨"Error executing query: " ++ e, rfl⟩
  · unfold check_vendor_compliance
    cases check_vendor_compliance_body env vendors with
    | ok s => exact ⟨s, rfl⟩
    | error e => exact ⟨"Error retrieving compliance data: " ++ e, rfl⟩
  · unfold lookup_schema
    cases lookup_schema_body kb question with
    | ok s => exact ⟨s, rfl⟩
    | error e => exact ⟨"Error accessing schema information: " ++ e, rfl⟩
  · intro e he
    unfold query_athena
    rw [he]
  · intro e he
    unfold check_vendor_compliance
    rw [he]
  · intro e he
    unfold lookup_schema
    rw [he]

/-- Witness for C3 in an environment where every AWS call raises. -/
theorem c3_witness :
    (∃ s, query_athena
      ⟨fun _ => .error "boom", fun _ => .error "boom", .error "boom", .error "boom"⟩
      "SELECT 1" = .ok s) ∧
    (∃ s, check_vendor_compliance
      ⟨fun _ => .error "boom", fun _ => .error "boom", .error "boom", .error "boom"⟩
      "V-1" = .ok s) ∧
    (∃ s, lookup_schema ⟨fun _ => .error "kaboom"⟩ "tables?" = .ok s) ∧
    (∀ e, query_athena_body
      ⟨fun _ => .error "boom", fun _ => .error "boom", .error "boom", .error "boom"⟩
      "SELECT 1" = .error e →
      query_athena
        ⟨fun _ => .error "boom", fun _ => .error "boom", .error "boom", .error "boom"⟩
        "SELECT 1" = .ok ("Error executing query: " ++ e)) ∧
    (∀ e, check_vendor_compliance_body
      ⟨fun _ => .error "boom", fun _ => .error "boom", .error "boom", .error "boom"⟩
      "V-1" = .error e →
      check_vendor_compliance
        ⟨fun _ => .error "boom", fun _ => .error "boom", .error "boom", .error "boom"⟩
        "V-1" = .ok ("Error retrieving compliance data: " ++ e)) ∧
    (∀ e, lookup_schema_body ⟨fun _ => .error "kaboom"⟩ "tables?" = .error e →
      lookup_schema ⟨fun _ => .error "kaboom"⟩ "tables?" =
        .ok ("Error accessing schema information: " ++ e)) :=
  c3_tools_return_strings
    ⟨fun _ => .error "boom", fun _ => .error "boom", .error "boom", .error "boom"⟩
    ⟨fun _ => .error "kaboom"⟩ "SELECT 1" "V-1" "tables?"

/-! ## `run_glue_crawlers` wait loop (`run_crawlers.py`)

Per crawler, the `while True` loop polls `glue.get_crawler` and branches on
the reported state.  The loop is unbounded; it is embedded with fuel, where
`none` means the fuel ran out with every observed state still
`RUNNING`/`STOPPING` (the loop would still be polling). -/

/-- Outcome of the per-crawler wait loop. -/
inductive CrawlerOutcome where
  | completed
  | warning (state : String)
deriving Repr, DecidableEq

/-- `state in ['RUNNING', 'STOPPING']`. -/
def isCrawlerRunning (s : String) : Bool := s = "RUNNING" || s = "STOPPING"

/-- The `while True` body: poll the crawler state at index `i`; `READY`
completes, `RUNNING`/`STOPPING` sleeps ten seconds and repeats, anything
else warns.  Returns the outcome and the index of the exiting poll. -/
def crawlerWaitAux (states : Nat → String) : Nat → Nat → Option (CrawlerOutcome × Nat)
  | 0, _ => Option.none
  | fuel + 1, i =>
      let s := states i
      if s = "READY" then some (.completed, i)
      else if isCrawlerRunning s then crawlerWaitAux states fuel (i + 1)
      else some (.warning s, i)

/-- The wait loop for one crawler, allowed `fuel` polls.  On exit at poll
index `n`, the loop made `n + 1` polls and slept ten seconds after each of
the first `n` polls. -/
def crawlerWait (states : Nat → String) (fuel : Nat) : Option (CrawlerOutcome × Nat) :=
  crawlerWaitAux states fuel 0

theorem crawlerWaitAux_spec (states : Nat → String) :
    ∀ fuel i,
      (∀ out n, crawlerWaitAux states fuel i = some (out, n) →
        i ≤ n ∧ n < i + fuel ∧
        (∀ k, i ≤ k → k < n → isCrawlerRunning (states k)) ∧
        ¬ isCrawlerRunning (states n) ∧
        (out = .completed ↔ states n = "READY") ∧
        (states n ≠ "READY" → out = .warning (states n))) ∧
      ((∀ k, i ≤ k → k < i + fuel → isCrawlerRunning (states k)) →
        crawlerWaitAux states fuel i = Option.none) := by
  intro fuel
  induction fuel with
  | zero =>
      intro i
      refine ⟨?_, fun _ => rfl⟩
      intro out n h
      simp [crawlerWaitAux] at h
  | succ m ih =>
      intro i
      constructor
      · intro out n h
        rw [crawlerWaitAux] at h
        by_cases hready : states i = "READY"
        · rw [if_pos hready] at h
          simp only [Option.some.injEq, Prod.mk.injEq] at h
          obtain ⟨ho, hn⟩ := h
          subst hn
          refine ⟨le_refl i, by omega, fun k hk1 hk2 => by omega, ?_, ?_, ?_⟩
          · simp [isCrawlerRunning, hready]
          · simp [← ho, hready]
          · intro hne
            exact absurd hready hne
        · rw [if_neg hready] at h
          by_cases hrun : isCrawlerRunning (states i)
          · rw [if_pos hrun] at h
            obtain ⟨h1, h2, h3, h4, h5, h6⟩ := (ih (i + 1)).1 out n h
            refine ⟨by omega, by omega, ?_, h4, h5, h6⟩
            intro k hk1 hk2
            rcases Nat.eq_or_lt_of_le hk1 with heq | hlt
            · rw [← heq]; exact hrun
            · exact h3 k hlt hk2
          · rw [if_neg hrun] at h
            simp only [Option.some.injEq, Prod.mk.injEq] at h
            obtain ⟨ho, hn⟩ := h
            subst hn
            subst ho
            refine ⟨le_refl i, by omega, fun k hk1 hk2 => by omega, hrun, ?_,
              fun _ => rfl⟩
            constructor
            · intro hc
              exact absurd hc (by simp)
            · intro hc
              exact absurd hc hready
      · intro hall
        rw [crawlerWaitAux]
        have hrun : isCrawlerRunning (states i) := hall i (le_refl i) (by omega)
        have hready : states i ≠ "READY" := by
          intro hr
          rw [hr] at hrun
          simp [isCrawlerRunning] at hrun
        rw [if_neg hready, if_pos hrun]
        exact (ih (i + 1)).2 (fun k hk1 hk2 => hall k (by omega) (by omega))

/-- C5: in `run_glue_crawlers` with `wait_for_completion=True`, for every
crawler the wait loop never exits while the reported state is `RUNNING` or
`STOPPING` (sleeping ten seconds after each such poll), reports the
crawler completed exactly when `READY` is observed, and ends the wait with
a warning on any other state. -/
theorem c5_crawler_wait (states : Nat → String) (fuel : Nat) :
    (∀ out n, crawlerWait states fuel = some (out, n) →
      n < fuel ∧
      (∀ k, k < n → isCrawlerRunning (states k)) ∧
      ¬ isCrawlerRunning (states n) ∧
      (out = .completed ↔ states n = "READY") ∧
      (states n ≠ "READY" → out = .warning (states n))) ∧
    ((∀ k, k < fuel → isCrawlerRunning (states k)) →
      crawlerWait states fuel = Option.none) := by
  have h := crawlerWaitAux_spec states fuel 0
  constructor
  · intro out n hsome
    obtain ⟨h1, h2, h3, h4, h5, h6⟩ := h.1 out n hsome
    exact ⟨by omega, fun k hk => h3 k (by omega) hk, h4, h5, h6⟩
  · intro hall
    exact h.2 (fun k _ hk => hall k (by omega))

/-- Witness for C5: a crawler that runs twice and then is `READY`. -/
theorem c5_witness :
    crawlerWait (fun i => if i < 2 then "RUNNING" else "READY") 10 =
        some (.completed, 2) ∧
    ((fun i => if i < 2 then "RUNNING" else "READY") (2 : Nat) = "READY") ∧
    crawlerWait (fun _ => "RUNNING") 10 = Option.none := by
  refine ⟨by decide, rfl, ?_⟩
  exact (c5_crawler_wait (fun _ => "RUNNING") 10).2 (fun k _ => by decide)

/-! ## `create_gateway` wait loop (`create_gateway.py`)

The create-gateway CLI call either fails (`sys.exit(1)`) or yields a
gateway id; the wait loop then polls `get-gateway` every five seconds
while `wait_count < 60`, breaking on status `READY`.  Exceptions inside
the `try` (e.g. JSON parsing) also exit with code 1 and are outside this
model, which covers the command's return code and the status polls. -/

/-- One status poll: the CLI call failed (nonzero return code), or it
succeeded and `.get('status')` produced the given optional status. -/
inductive GatewayCheck where
  | cmdFailed
  | ok (status : Option String)

/-- Whether a poll observed status `READY` (a failed check or a missing
status field does not). -/
def gatewayCheckReady : GatewayCheck → Bool
  | .ok (some s) => s = "READY"
  | _ => false

/-- The `while wait_count < 60` loop (twelve iterations, `wait_count`
advancing by five): returns whether `READY` was observed, and the total
number of polls made (counting from poll index 0). -/
def gatewayWaitAux (checks : Nat → GatewayCheck) : Nat → Nat → Bool × Nat
  | 0, j => (false, j)
  | fuel + 1, j =>
      if gatewayCheckReady (checks j) then (true, j + 1)
      else gatewayWaitAux checks fuel (j + 1)

/-- Result of `create_gateway` up to the point where gateway-target
creation begins. -/
inductive GatewayResult where
  | exited (code : Nat)
  | proceeded (timeoutWarning : Bool) (polls : Nat) (sleeps : Nat)
deriving Repr, DecidableEq

/-- Environment of `create_gateway`: the return code of the
`create-gateway` CLI call and the sequence of status polls. -/
structure GatewayEnv where
  createRC : Int
  checks : Nat → GatewayCheck

/-- `create_gateway` from the `create-gateway` CLI call through the wait
loop: a nonzero return code exits the process with code 1; otherwise the
loop polls at most twelve times, five seconds apart, prints the timeout
warning exactly when `READY` was never observed, and proceeds to create
the gateway target either way.  `sleeps` counts `time.sleep(5)` calls
(every iteration that did not break slept once). -/
def create_gateway_waitPhase (env : GatewayEnv) : GatewayResult :=
  if env.createRC ≠ 0 then .exited 1
  else
    let r := gatewayWaitAux env.checks 12 0
    .proceeded (!r.1) r.2 (if r.1 then r.2 - 1 else r.2)

theorem gatewayWaitAux_spec (checks : Nat → GatewayCheck) :
    ∀ fuel j,
      (∀ n, gatewayWaitAux checks fuel j = (true, n) →
        j < n ∧ n ≤ j + fuel ∧ gatewayCheckReady (checks (n - 1)) ∧
        ∀ k, j ≤ k → k < n - 1 → ¬ gatewayCheckReady (checks k)) ∧
      (∀ n, gatewayWaitAux checks fuel j = (false, n) →
        n = j + fuel ∧ ∀ k, j ≤ k → k < j + fuel → ¬ gatewayCheckReady (checks k)) := by
  intro fuel
  induction fuel with
  | zero =>
      intro j
      constructor
      · intro n h
        simp [gatewayWaitAux] at h
      · intro n h
        simp only [gatewayWaitAux, Prod.mk.injEq] at h
        exact ⟨by omega, fun k hk1 hk2 => by omega⟩
  | succ m ih =>
      intro j
      constructor
      · intro n h
        rw [gatewayWaitAux] at h
        by_cases hr : gatewayCheckReady (checks j)
        · rw [if_pos hr] at h
          simp only [Prod.mk.injEq] at h
          obtain ⟨_, hn⟩ := h
          subst hn
          exact ⟨by omega, by omega, by simpa using hr, fun k hk1 hk2 => by omega⟩
        · rw [if_neg hr] at h
          obtain ⟨h1, h2, h3, h4⟩ := (ih (j + 1)).1 n h
          refine ⟨by omega, by omega, h3, ?_⟩
          intro k hk1 hk2
          rcases Nat.eq_or_lt_of_le hk1 with heq | hlt
          · rw [← heq]; exact hr
          · exact h4 k hlt hk2
      · intro n h
        rw [gatewayWaitAux] at h
        by_cases hr : gatewayCheckReady (checks j)
        · rw [if_pos hr] at h
          simp at h
        · rw [if_neg hr] at h
          obtain ⟨h1, h2⟩ := (ih (j + 1)).2 n h
          refine ⟨by omega, ?_⟩
          intro k hk1 hk2
          rcases Nat.eq_or_lt_of_le hk1 with heq | hlt
          · rw [← heq]; exact hr
          · exact h2 k hlt (by omega)

/-- C6: `create_gateway` waits for the gateway to reach `READY`, polling
its status every five seconds for at most 60 seconds (twelve polls); if
`READY` is not observed within that bound it prints a timeout warning and
still proceeds to create the gateway target, whereas a nonzero return
code of the `create-gateway` command itself terminates the process with
exit code 1. -/
theorem c6_gateway_wait (env : GatewayEnv) :
    (env.createRC ≠ 0 → create_gateway_waitPhase env = .exited 1) ∧
    (env.createRC = 0 →
      (∀ polls sleeps, create_gateway_waitPhase env = .proceeded false polls sleeps →
        1 ≤ polls ∧ polls ≤ 12 ∧ sleeps = polls - 1 ∧
        gatewayCheckReady (env.checks (polls - 1)) ∧
        ∀ k, k < polls - 1 → ¬ gatewayCheckReady (env.checks k)) ∧
      (∀ polls sleeps, create_gateway_waitPhase env = .proceeded true polls sleeps →
        polls = 12 ∧ sleeps = 12 ∧
        ∀ k, k < 12 → ¬ gatewayCheckReady (env.checks k)) ∧
      (∃ w polls sleeps, create_gateway_waitPhase env = .proceeded w polls sleeps)) := by
  constructor
  · intro h
    unfold create_gateway_waitPhase
    rw [if_pos h]
  · intro h0
    have hrc : ¬ env.createRC ≠ 0 := by simp [h0]
    have hspec := gatewayWaitAux_spec env.checks 12 0
    refine ⟨?_, ?_, ?_⟩
    · intro polls sleeps hp
      unfold create_gateway_waitPhase at hp
      rw [if_neg hrc] at hp
      rcases hw : gatewayWaitAux env.checks 12 0 with ⟨ready, n⟩
      rw [hw] at hp
      cases ready with
      | false => simp at hp
      | true =>
          injection hp with htw hn hs
          simp at hs
          obtain ⟨h1, h2, h3, h4⟩ := hspec.1 n hw
          refine ⟨by omega, by omega, by omega, ?_, ?_⟩
          · rw [← hn]; exact h3
          · intro k hk
            exact h4 k (by omega) (by omega)
    · intro polls sleeps hp
      unfold create_gateway_waitPhase at hp
      rw [if_neg hrc] at hp
      rcases hw : gatewayWaitAux env.checks 12 0 with ⟨ready, n⟩
      rw [hw] at hp
      cases ready with
      | true => simp at hp
      | false =>
          injection hp with htw hn hs
          simp at hs
          obtain ⟨h1, h2⟩ := hspec.2 n hw
          refine ⟨by omega, by omega, ?_⟩
          intro k hk
          exact h2 k (by omega) (by omega)
    · unfold create_gateway_waitPhase
      rw [if_neg hrc]
      exact ⟨_, _, _, rfl⟩

/-- Witness for C6: a failing create command exits with code 1; with a
successful command, `READY` on the third poll stops the loop after three
polls and two sleeps. -/
theorem c6_witness :
    create_gateway_waitPhase ⟨1, fun _ => .ok (some "CREATING")⟩ = .exited 1 ∧
    (∀ polls sleeps,
      create_gateway_waitPhase
        ⟨0, fun j => if j < 2 then .ok (some "CREATING") else .ok (some "READY")⟩ =
        .proceeded false polls sleeps →
      1 ≤ polls ∧ polls ≤ 12 ∧ sleeps = polls - 1 ∧
      gatewayCheckReady
        ((fun j => if j < 2 then GatewayCheck.ok (some "CREATING")
          else GatewayCheck.ok (some "READY")) (polls - 1)) ∧
      ∀ k, k < polls - 1 →
        ¬ gatewayCheckReady
          ((fun j => if j < 2 then GatewayCheck.ok (some "CREATING")
            else GatewayCheck.ok (some "READY")) k)) := by
  constructor
  · exact (c6_gateway_wait ⟨1, fun _ => .ok (some "CREATING")⟩).1 (by decide)
  · exact ((c6_gateway_wait
      ⟨0, fun j => if j < 2 then .ok (some "CREATING") else .ok (some "READY")⟩).2
        rfl).1

/-! ## Deployment status monitor (`deploy_spa_multi_agent_system_v8.py`)

The monitor loop in `main` polls `agentcore_runtime.status()` at most 60
times.  `READY` breaks with success; a failed status cleans up the
temporary files and returns; any other status, or a status-check
exception, consumes the attempt and sleeps 30 seconds when attempts
remain; exhausting all 60 attempts without `READY` is a timeout, which
also cleans up.  The embedding records where the loop exits, and the
top-level result maps an exit at attempt `i` (0-based) to `i + 1` polls
and `i` thirty-second sleeps (a sleep follows every completed non-final
attempt), with 59 sleeps on timeout. -/

/-- `status in ['CREATE_FAILED', 'DELETE_FAILED', 'UPDATE_FAILED', 'FAILED']`. -/
def isFailedStatus (s : String) : Bool :=
  s = "CREATE_FAILED" || s = "DELETE_FAILED" || s = "UPDATE_FAILED" || s = "FAILED"

/-- Where the monitor loop exits. -/
inductive MonitorExit where
  | success (i : Nat)
  | aborted (st : String) (i : Nat)
  | timedOut
deriving Repr, DecidableEq

/-- The monitor loop: poll attempt `i`; `READY` succeeds, a failed status
aborts, anything else (including an exception from the status check)
consumes the attempt. -/
def monitorExitAux (f : Nat → Except String String) : Nat → Nat → MonitorExit
  | 0, _ => .timedOut
  | fuel + 1, i =>
      match f i with
      | .ok s =>
          if s = "READY" then .success i
          else if isFailedStatus s then .aborted s i
          else monitorExitAux f fuel (i + 1)
      | .error _ => monitorExitAux f fuel (i + 1)

/-- Result of the monitoring section of `main`, with poll and sleep counts
and whether `cleanup_temp_files` ran before returning. -/
inductive MonitorResult where
  | success (polls : Nat) (sleeps : Nat)
  | aborted (st : String) (polls : Nat) (sleeps : Nat) (cleaned : Bool)
  | timedOut (sleeps : Nat) (cleaned : Bool)
deriving Repr, DecidableEq

/-- The monitoring section of `main` (`max_attempts = 60`). -/
def deployment_monitor (f : Nat → Except String String) : MonitorResult :=
  match monitorExitAux f 60 0 with
  | .success i => .success (i + 1) i
  | .aborted st i => .aborted st (i + 1) i true
  | .timedOut => .timedOut 59 true

theorem monitorExitAux_spec (f : Nat → Except String String) :
    ∀ fuel j,
      (∀ i, monitorExitAux f fuel j = .success i →
        j ≤ i ∧ i < j + fuel ∧ f i = .ok "READY" ∧
        ∀ k, j ≤ k → k < i → ∀ st, f k = .ok st →
          st ≠ "READY" ∧ ¬ isFailedStatus st) ∧
      (∀ st i, monitorExitAux f fuel j = .aborted st i →
        j ≤ i ∧ i < j + fuel ∧ f i = .ok st ∧ isFailedStatus st ∧ st ≠ "READY" ∧
        ∀ k, j ≤ k → k < i → ∀ st2, f k = .ok st2 →
          st2 ≠ "READY" ∧ ¬ isFailedStatus st2) ∧
      (monitorExitAux f fuel j = .timedOut →
        ∀ k, j ≤ k → k < j + fuel → ∀ st, f k = .ok st →
          st ≠ "READY" ∧ ¬ isFailedStatus st) := by
  intro fuel
  induction fuel with
  | zero =>
      intro j
      refine ⟨?_, ?_, ?_⟩
      · intro i h; simp [monitorExitAux] at h
      · intro st i h; simp [monitorExitAux] at h
      · intro _ k hk1 hk2; omega
  | succ m ih =>
      intro j
      have step : ∀ res, monitorExitAux f (m + 1) j = res →
          (∃ s, f j = .ok s ∧ s = "READY" ∧ res = .success j) ∨
          (∃ s, f j = .ok s ∧ s ≠ "READY" ∧ isFailedStatus s ∧ res = .aborted s j) ∨
          ((∀ s, f j = .ok s → s ≠ "READY" ∧ ¬ isFailedStatus s) ∧
            res = monitorExitAux f m (j + 1)) := by
        intro res h
        cases hf : f j with
        | ok s =>
            have hred : monitorExitAux f (m + 1) j =
                (if s = "READY" then MonitorExit.success j
                 else if isFailedStatus s then MonitorExit.aborted s j
                 else monitorExitAux f m (j + 1)) := by
              rw [monitorExitAux, hf]
            rw [hred] at h
            by_cases hr : s = "READY"
            · rw [if_pos hr] at h
              exact Or.inl ⟨s, rfl, hr, h.symm⟩
            · rw [if_neg hr] at h
              by_cases hfail : isFailedStatus s
              · rw [if_pos hfail] at h
                exact Or.inr (Or.inl ⟨s, rfl, hr, hfail, h.symm⟩)
              · rw [if_neg hfail] at h
                refine Or.inr (Or.inr ⟨?_, h.symm⟩)
                intro s2 hs2
                injection hs2 with hs2
                rw [← hs2]
                exact ⟨hr, hfail⟩
        | error e =>
            have hred : monitorExitAux f (m + 1) j = monitorExitAux f m (j + 1) := by
              rw [monitorExitAux, hf]
            rw [hred] at h
            refine Or.inr (Or.inr ⟨?_, h.symm⟩)
            intro s2 hs2
            exact Except.noConfusion hs2
      refine ⟨?_, ?_, ?_⟩
      · intro i h
        rcases step _ h with ⟨s, hf, hr, hres⟩ | ⟨s, hf, hr, hfail, hres⟩ |
            ⟨hcur, hres⟩
        · cases hres
          rw [hr] at hf
          exact ⟨le_refl j, by omega, hf, fun k hk1 hk2 => by omega⟩
        · exact absurd hres.symm (by simp)
        · obtain ⟨h1, h2, h3, h4⟩ := (ih (j + 1)).1 i hres.symm
          refine ⟨by omega, by omega, h3, ?_⟩
          intro k hk1 hk2 st hst
          rcases Nat.eq_or_lt_of_le hk1 with heq | hlt
          · rw [← heq] at hst
            exact hcur st hst
          · exact h4 k hlt hk2 st hst
      · intro st i h
        rcases step _ h with ⟨s, hf, hr, hres⟩ | ⟨s, hf, hr, hfail, hres⟩ |
            ⟨hcur, hres⟩
        · exact absurd hres.symm (by simp)
        · cases hres
          exact ⟨le_refl j, by omega, hf, hfail, hr,
            fun k hk1 hk2 => by omega⟩
        · obtain ⟨h1, h2, h3, h4, h5, h6⟩ := (ih (j + 1)).2.1 st i hres.symm
          refine ⟨by omega, by omega, h3, h4, h5, ?_⟩
          intro k hk1 hk2 st2 hst
          rcases Nat.eq_or_lt_of_le hk1 with heq | hlt
          · rw [← heq] at hst
            exact hcur st2 hst
          · exact h6 k hlt hk2 st2 hst
      · intro h
        rcases step _ h with ⟨s, hf, hr, hres⟩ | ⟨s, hf, hr, hfail, hres⟩ |
            ⟨hcur, hres⟩
        · exact absurd hres.symm (by simp)
        · exact absurd hres.symm (by simp)
        · intro k hk1 hk2 st hst
          rcases Nat.eq_or_lt_of_le hk1 with heq | hlt
          · rw [← heq] at hst
            exact hcur st hst
          · exact (ih (j + 1)).2.2 hres.symm k hlt (by omega) st hst

/-- C7: the deployment monitor polls the runtime status at most 60 times
with a thirty-second sleep between polls; it declares success and stops
exactly when a poll reports `READY`, aborts and cleans up the temporary
files when a poll reports one of `CREATE_FAILED`, `DELETE_FAILED`,
`UPDATE_FAILED`, `FAILED`, treats the deployment as timed out (also
cleaning up) when the 60 polls complete without `READY`, and a
status-check exception consumes one attempt like any other poll. -/
theorem c7_deploy_monitor (f : Nat → Except String String) :
    (∀ polls sleeps, deployment_monitor f = .success polls sleeps →
      1 ≤ polls ∧ polls ≤ 60 ∧ sleeps = polls - 1 ∧
      f (polls - 1) = .ok "READY" ∧
      ∀ k, k < polls - 1 → ∀ st, f k = .ok st →
        st ≠ "READY" ∧ ¬ isFailedStatus st) ∧
    (∀ st polls sleeps cleaned,
      deployment_monitor f = .aborted st polls sleeps cleaned →
      cleaned = true ∧ 1 ≤ polls ∧ polls ≤ 60 ∧ sleeps = polls - 1 ∧
      f (polls - 1) = .ok st ∧ isFailedStatus st ∧
      ∀ k, k < polls - 1 → ∀ st2, f k = .ok st2 →
        st2 ≠ "READY" ∧ ¬ isFailedStatus st2) ∧
    (∀ sleeps cleaned, deployment_monitor f = .timedOut sleeps cleaned →
      cleaned = true ∧ sleeps = 59 ∧
      ∀ k, k < 60 → ∀ st, f k = .ok st →
        st ≠ "READY" ∧ ¬ isFailedStatus st) := by
  have hspec := monitorExitAux_spec f 60 0
  refine ⟨?_, ?_, ?_⟩
  · intro polls sleeps h
    unfold deployment_monitor at h
    rcases hex : monitorExitAux f 60 0 with i | sti | _ <;> rw [hex] at h
    · simp only [MonitorResult.success.injEq] at h
      obtain ⟨hp, hs⟩ := h
      obtain ⟨h1, h2, h3, h4⟩ := hspec.1 i hex
      subst hp
      exact ⟨by omega, by omega, by omega, by simpa using h3,
        fun k hk st hst => h4 k (by omega) (by omega) st hst⟩
    · exact absurd h (by simp)
    · exact absurd h (by simp)
  · intro st polls sleeps cleaned h
    unfold deployment_monitor at h
    rcases hex : monitorExitAux f 60 0 with i | sti | _ <;> rw [hex] at h
    · exact absurd h (by simp)
    · rename_i i
      simp only [MonitorResult.aborted.injEq] at h
      obtain ⟨hst, hp, hs, hc⟩ := h
      obtain ⟨h1, h2, h3, h4, h5, h6⟩ := hspec.2.1 sti i hex
      subst hp hst
      exact ⟨hc.symm, by omega, by omega, by omega, by simpa using h3, h4,
        fun k hk st2 hst2 => h6 k (by omega) (by omega) st2 hst2⟩
    · exact absurd h (by simp)
  · intro sleeps cleaned h
    unfold deployment_monitor at h
    rcases hex : monitorExitAux f 60 0 with i | sti | _ <;> rw [hex] at h
    · exact absurd h (by simp)
    · exact absurd h (by simp)
    · simp only [MonitorResult.timedOut.injEq] at h
      obtain ⟨hs, hc⟩ := h
      exact ⟨hc.symm, hs.symm, fun k hk st hst =>
        hspec.2.2 hex k (by omega) (by omega) st hst⟩

/-- Witness for C7: `READY` on the third poll gives success after three
polls and two sleeps; a failed status on the first poll aborts with
cleanup. -/
theorem c7_witness :
    (∀ polls sleeps,
      deployment_monitor
        (fun i => if i < 2 then .ok "CREATING" else .ok "READY") =
        .success polls sleeps →
      1 ≤ polls ∧ polls ≤ 60 ∧ sleeps = polls - 1 ∧
      (fun i => if i < 2 then Except.ok "CREATING"
        else Except.ok "READY" : Nat → Except String String) (polls - 1) =
          .ok "READY" ∧
      ∀ k, k < polls - 1 → ∀ st,
        (fun i => if i < 2 then Except.ok "CREATING"
          else Except.ok "READY" : Nat → Except String String) k = .ok st →
        st ≠ "READY" ∧ ¬ isFailedStatus st) ∧
    deployment_monitor
      (fun i => if i < 2 then .ok "CREATING" else .ok "READY") =
        .success 3 2 := by
  constructor
  · exact (c7_deploy_monitor
      (fun i => if i < 2 then .ok "CREATING" else .ok "READY")).1
  · decide

/-! ## JWT authorizer configuration (C8) -/

/-- The `customJWTAuthorizer` dictionary shared by both scripts. -/
structure JWTAuthorizerConfig where
  discoveryUrl : String
  allowedClients : List String
deriving Repr, DecidableEq

/-- The Cognito discovery URL f-string built in `main` of the deployment
script. -/
def cognito_discovery_url (region user_pool_id : String) : String :=
  "https://cognito-idp." ++ region ++ ".amazonaws.com/" ++ user_pool_id ++
    "/.well-known/openid-configuration"

/-- The `authorizer_configuration` passed to `agentcore_runtime.configure`
by the deployment script. -/
def deploy_authorizer_configuration (region user_pool_id client_id : String) :
    JWTAuthorizerConfig :=
  { discoveryUrl := cognito_discovery_url region user_pool_id
    allowedClients := [client_id] }

/-- The `authorizer_config` built by `create_gateway` (which interpolates
its own discovery-URL f-string). -/
def gateway_authorizer_config
    (aws_region cognito_user_pool_id cognito_client_id : String) :
    JWTAuthorizerConfig :=
  { discoveryUrl := "https://cognito-idp." ++ aws_region ++ ".amazonaws.com/" ++
      cognito_user_pool_id ++ "/.well-known/openid-configuration"
    allowedClients := [cognito_client_id] }

/-- C8: both the runtime deployment and the gateway creation configure a
`customJWTAuthorizer` whose `discoveryUrl` is
`https://cognito-idp.<region>.amazonaws.com/<pool>/.well-known/openid-configuration`
and whose `allowedClients` list contains exactly the one supplied Cognito
client id; the two configurations coincide. -/
theorem c8_jwt_authorizer (region pool client : String) :
    (deploy_authorizer_configuration region pool client).discoveryUrl =
      "https://cognito-idp." ++ region ++ ".amazonaws.com/" ++ pool ++
        "/.well-known/openid-configuration" ∧
    (deploy_authorizer_configuration region pool client).allowedClients =
      [client] ∧
    gateway_authorizer_config region pool client =
      deploy_authorizer_configuration region pool client :=
  ⟨rfl, rfl, rfl⟩

/-! ## Streaming entrypoints (C9)

A model of Python values sufficient for the payload validation at the top
of `spa_multi_agent_system` and `spa_multi_agent_system_streaming`.  The
behaviour after validation (memory lookup, session manager, agent
construction, streaming) calls the external agent framework and is
abstracted as a function `rest` of the payload; the Boolean in the result
records whether that machinery was reached. -/

/-- Python values. -/
inductive PyVal where
  | none
  | bool (b : Bool)
  | int (n : Int)
  | str (s : String)
  | list (xs : List PyVal)
  | dict (kvs : List (String × PyVal))

/-- Python truthiness. -/
def PyVal.truthy : PyVal → Bool
  | .none => false
  | .bool b => b
  | .int n => n != 0
  | .str s => s ≠ ""
  | .list xs => !xs.isEmpty
  | .dict kvs => !kvs.isEmpty

/-- `isinstance(payload, dict)`. -/
def PyVal.isDictV : PyVal → Bool
  | .dict _ => true
  | _ => false

/-- `payload.get(key)` (with default `None`). -/
def PyVal.getKey : PyVal → String → PyVal
  | .dict kvs, k =>
      match kvs.find? (fun kv => kv.1 = k) with
      | some kv => kv.2
      | Option.none => .none
  | _, _ => .none

/-- The `spa_multi_agent_system` entrypoint: payload validation followed
by the abstracted agent machinery. -/
def spa_multi_agent_system (rest : PyVal → List PyVal) (payload : PyVal) :
    List PyVal × Bool :=
  if !payload.truthy || !payload.isDictV then
    ([.dict [("error", .str "Invalid request format")]], false)
  else
    let user_input := payload.getKey "prompt"
    if !user_input.truthy then
      ([.dict [("error", .str "No prompt provided in request")]], false)
    else (rest payload, true)

/-- The `spa_multi_agent_system_streaming` generator: payload validation
followed by the abstracted agent machinery. -/
def spa_multi_agent_system_streaming (rest : PyVal → List PyVal)
    (payload : PyVal) : List PyVal × Bool :=
  if !payload.truthy || !payload.isDictV then
    ([.dict [("type", .str "error"), ("data", .str "Error: Invalid request format.")]],
      false)
  else
    let user_input := payload.getKey "prompt"
    if !user_input.truthy then
      ([.dict [("type", .str "error"),
        ("data", .str "Error: No prompt provided in request.")]], false)
    else (rest payload, true)

/-- C9: for every payload that is falsy, not a dict, or whose `prompt`
value is missing or falsy, each streaming entrypoint yields exactly one
error event and terminates without reaching the agent, session-manager or
memory machinery (the flag stays `false` and `rest` is never consulted). -/
theorem c9_invalid_payload_single_error (rest1 rest2 : PyVal → List PyVal)
    (payload : PyVal)
    (h : payload.truthy = false ∨ payload.isDictV = false ∨
      (payload.getKey "prompt").truthy = false) :
    (∃ m, spa_multi_agent_system rest1 payload =
      ([.dict [("error", .str m)]], false)) ∧
    (∃ m, spa_multi_agent_system_streaming rest2 payload =
      ([.dict [("type", .str "error"), ("data", .str m)]], false)) := by
  by_cases h1 : (!payload.truthy || !payload.isDictV) = true
  · constructor
    · exact ⟨"Invalid request format", by rw [spa_multi_agent_system, if_pos h1]⟩
    · exact ⟨"Error: Invalid request format.",
        by rw [spa_multi_agent_system_streaming, if_pos h1]⟩
  · have hp : (payload.getKey "prompt").truthy = false := by
      rcases h with h | h | h
      · simp [h] at h1
      · simp [h] at h1
      · exact h
    constructor
    · refine ⟨"No prompt provided in request", ?_⟩
      rw [spa_multi_agent_system, if_neg h1]
      simp only [hp, Bool.not_false, if_true]
    · refine ⟨"Error: No prompt provided in request.", ?_⟩
      rw [spa_multi_agent_system_streaming, if_neg h1]
      simp only [hp, Bool.not_false, if_true]

/-- Witness for C9 at the falsy payload `{}` (an empty dict). -/
theorem c9_witness :
    (∃ m, spa_multi_agent_system (fun _ => []) (.dict []) =
      ([.dict [("error", .str m)]], false)) ∧
    (∃ m, spa_multi_agent_system_streaming (fun _ => []) (.dict []) =
      ([.dict [("type", .str "error"), ("data", .str m)]], false)) :=
  c9_invalid_payload_single_error (fun _ => []) (fun _ => []) (.dict [])
    (Or.inl rfl)

/-! ## OAuth2 token cache (`get_gateway_access_token`, C10)

The module-level state `_access_token_cache` / `_token_expiry` is passed
and returned explicitly; `time.time()` is the parameter `now` (taken as
constant during the call); the HTTP round trip
(`requests.post` + `raise_for_status` + `.json()['access_token']`) is the
parameter `post`: an exception, a response without an `access_token` key
(whose `KeyError` the handler also catches), or a token string.  The
Boolean in the result records whether an HTTP request was issued. -/

/-- The cached-token state. -/
structure TokenState where
  cache : Option String
  expiry : Option Nat
deriving Repr, DecidableEq

/-- The three gateway OAuth2 environment variables. -/
structure GatewayOAuthCfg where
  tokenUrl : Option String
  clientId : Option String
  clientSecret : Option String
deriving Repr, DecidableEq

/-- Python truthiness of an optional string (`None` and `''` are falsy). -/
def optStrTruthy : Option String → Bool
  | Option.none => false
  | some s => s ≠ ""

/-- Python truthiness of an optional number (`None` and `0` are falsy). -/
def optNatTruthy : Option Nat → Bool
  | Option.none => false
  | some n => n ≠ 0

/-- `get_gateway_access_token()`: returns the token (or `None`), the new
cache state, and whether an HTTP request was issued. -/
def get_gateway_access_token (cfg : GatewayOAuthCfg)
    (post : Except String (Option String)) (now : Nat) (st : TokenState) :
    Option String × TokenState × Bool :=
  if optStrTruthy st.cache && optNatTruthy st.expiry &&
      decide (now < st.expiry.getD 0) then
    (st.cache, st, false)
  else if !optStrTruthy cfg.tokenUrl || !optStrTruthy cfg.clientId ||
      !optStrTruthy cfg.clientSecret then
    (Option.none, st, false)
  else
    match post with
    | .error _ => (Option.none, st, true)
    | .ok Option.none => (Option.none, st, true)
    | .ok (some tok) => (some tok, ⟨some tok, some (now + 50 * 60)⟩, true)

/-- C10 counterexample: after a fetch that returned the empty-string token
at time 0, the state caches the token `""` with expiry 3000; on a call at
time 1000 — a token is cached and less than 50 minutes have elapsed — the
function nevertheless issues a fresh HTTP request (the truthiness test on
`_access_token_cache` fails for the empty string) instead of returning the
cached token without any request.  This refutes the claim's first
conjunct. -/
theorem c10_counterexample :
    get_gateway_access_token ⟨some "u", some "c", some "s"⟩ (.ok (some ""))
        0 ⟨Option.none, Option.none⟩ =
      (some "", ⟨some "", some 3000⟩, true) ∧
    (⟨some "", some 3000⟩ : TokenState).cache.isSome = true ∧
    (1000 : Nat) < 3000 ∧
    get_gateway_access_token ⟨some "u", some "c", some "s"⟩ (.ok (some "t2"))
        1000 ⟨some "", some 3000⟩ =
      (some "t2", ⟨some "t2", some 4000⟩, true) ∧
    get_gateway_access_token ⟨some "u", some "c", some "s"⟩ (.ok (some "t2"))
        1000 ⟨some "", some 3000⟩ ≠
      ((⟨some "", some 3000⟩ : TokenState).cache, ⟨some "", some 3000⟩, false) := by
  refine ⟨by decide, rfl, by omega, by decide, by decide⟩

/-- C10 (amended): whenever a nonempty token is cached with a nonzero
recorded expiry and the current time is before that expiry, the cached
token is returned with no HTTP request and the state unchanged; after
every successful fetch the cached expiry is set exactly fifty minutes
ahead of the fetch time regardless of the token's actual lifetime; and on
any fetch failure (missing configuration, HTTP/JSON error, or response
without an `access_token` key) the function returns `None` and leaves the
cached token and expiry unchanged. -/
theorem c10_token_cache (cfg : GatewayOAuthCfg)
    (post : Except String (Option String)) (now : Nat) (st : TokenState) :
    (optStrTruthy st.cache = true → optNatTruthy st.expiry = true →
      now < st.expiry.getD 0 →
      get_gateway_access_token cfg post now st = (st.cache, st, false)) ∧
    ((optStrTruthy st.cache && optNatTruthy st.expiry &&
        decide (now < st.expiry.getD 0)) = false →
      (optStrTruthy cfg.tokenUrl = false ∨ optStrTruthy cfg.clientId = false ∨
          optStrTruthy cfg.clientSecret = false →
        get_gateway_access_token cfg post now st = (Option.none, st, false)) ∧
      (optStrTruthy cfg.tokenUrl = true → optStrTruthy cfg.clientId = true →
        optStrTruthy cfg.clientSecret = true →
        (∀ e, post = .error e →
          get_gateway_access_token cfg post now st = (Option.none, st, true)) ∧
        (post = .ok Option.none →
          get_gateway_access_token cfg post now st = (Option.none, st, true)) ∧
        (∀ tok, post = .ok (some tok) →
          get_gateway_access_token cfg post now st =
            (some tok, ⟨some tok, some (now + 50 * 60)⟩, true)))) := by
  constructor
  · intro h1 h2 h3
    unfold get_gateway_access_token
    rw [if_pos (by simp [h1, h2, h3])]
  · intro hmiss
    have hcond : ¬ ((optStrTruthy st.cache && optNatTruthy st.expiry &&
        decide (now < st.expiry.getD 0)) = true) := by simp [hmiss]
    constructor
    · intro hcfg
      unfold get_gateway_access_token
      rw [if_neg hcond, if_pos ?_]
      rcases hcfg with h | h | h <;> simp [h]
    · intro hu hc hs
      have hcfg : ¬ ((!optStrTruthy cfg.tokenUrl || !optStrTruthy cfg.clientId ||
          !optStrTruthy cfg.clientSecret) = true) := by simp [hu, hc, hs]
      refine ⟨?_, ?_, ?_⟩
      · intro e he
        unfold get_gateway_access_token
        rw [if_neg hcond, if_neg hcfg, he]
      · intro he
        unfold get_gateway_access_token
        rw [if_neg hcond, if_neg hcfg, he]
      · intro tok he
        unfold get_gateway_access_token
        rw [if_neg hcond, if_neg hcfg, he]

/-- Witness for C10: a fresh nonempty cached token is returned without an
HTTP request. -/
theorem c10_witness :
    get_gateway_access_token ⟨some "u", some "c", some "s"⟩ (.ok (some "x"))
        50 ⟨some "tok", some 100⟩ =
      (some "tok", ⟨some "tok", some 100⟩, false) :=
  (c10_token_cache ⟨some "u", some "c", some "s"⟩ (.ok (some "x")) 50
    ⟨some "tok", some 100⟩).1 (by decide) (by decide) (by decide)

end SpaRfq
